import Mathlib

/-!
Verification of the Python testing pipeline orchestrator
(`pythonTestingPipelineService.ts`).

The pure text-processing helpers (`sanitizeCode`, the bracket-balance
validator `validatePythonSyntax` — named `checkBalance` here — and
`parseTestCounts`) are embedded directly over `List Char` / `String`.
External collaborators (language-model chat calls, `JSON.parse`, the file
system and the test-runner process) are modelled as oracles: each agent
call is a field of `AgentEnv` giving either the thrown error message or
the parsed value, exactly at the boundary where the source consumes them.
-/

/-- Whitespace test used by JavaScript `trim`, `trimEnd` and the regex
class `\s`: ASCII whitespace, NBSP, the Unicode space separators, the
line separators and the BOM. -/
def isJsWS (c : Char) : Bool :=
  let n := c.toNat
  (9 ≤ n && n ≤ 13) || n == 32 || n == 160 || n == 5760 ||
    (8192 ≤ n && n ≤ 8202) || n == 8232 || n == 8233 ||
    n == 8239 || n == 8287 || n == 12288 || n == 65279

/-- The backtick character (code point 96). -/
def btChar : Char := Char.ofNat 96

/-- The list of three backticks, a markdown fence delimiter. -/
def ticks : List Char := [btChar, btChar, btChar]

/-- The characters of the fence language tag recognised by the fallback
regex of `sanitizeCode` (`python`). -/
def pyTag : List Char := "python".toList

/-- JavaScript `String.prototype.trim` on a character list: drop the
whitespace run at each end. -/
def jsTrim (l : List Char) : List Char :=
  (l.dropWhile isJsWS).rdropWhile isJsWS

/-- JavaScript `String.prototype.trimEnd`. -/
def jsTrimEnd (l : List Char) : List Char :=
  l.rdropWhile isJsWS

/-- The step `code.substring(firstNewline + 1)` guarded by
`indexOf('\n') !== -1` in `sanitizeCode`: drop the first line when a
newline exists, otherwise keep the text unchanged. -/
def dropFirstLine (l : List Char) : List Char :=
  if l.any (· == '\n') then (l.dropWhile (· != '\n')).drop 1 else l

/-- Occurrence test for a triple-backtick fence anywhere in the text;
this is `code.includes('\x60\x60\x60')`. -/
def hasTicks : List Char → Bool
  | [] => false
  | c :: rest => ticks.isPrefixOf (c :: rest) || hasTicks rest

/-- Lazy scan of `[\s\S]*?` up to the next closing fence: the text
strictly before the first occurrence of three backticks, or `none` when
no fence follows. -/
def takeUntilTicks : List Char → Option (List Char)
  | [] => none
  | c :: rest =>
    if ticks.isPrefixOf (c :: rest) then some []
    else (takeUntilTicks rest).map (fun t => c :: t)

/-- Leftmost match of the fallback regex of `sanitizeCode`
(an opening fence, an optional `python` tag, greedy whitespace, then a
lazily captured body up to the next fence), returning the captured
body. When the body search fails the scan moves to the next start
position; skipping the tag or the whitespace cannot reveal a closing
fence that the skipped characters do not contain, because none of them
is a backtick, so no backtracking case is lost. -/
def findFenceFrom : List Char → Option (List Char)
  | [] => none
  | c :: rest =>
    if ticks.isPrefixOf (c :: rest) then
      let r := rest.drop 2
      let r1 := if pyTag.isPrefixOf r then r.drop 6 else r
      let r2 := r1.dropWhile isJsWS
      match takeUntilTicks r2 with
      | some captured => some captured
      | none => findFenceFrom rest
    else findFenceFrom rest

/-- The final `replace` of `sanitizeCode`, removing the run of backticks
anchored at each end of the string. -/
def stripTicksEnds (l : List Char) : List Char :=
  let l1 := l.dropWhile (· == btChar)
  l1.rdropWhile (· == btChar)

/-- The three fence-handling blocks of `sanitizeCode`: drop the first
line of a leading fence, cut a trailing fence and trim its end, and
otherwise extract the first embedded fenced region found by the
fallback regex (whose capture the source trims). -/
def afterFences (code : List Char) : List Char :=
  let code1 := if ticks.isPrefixOf code then dropFirstLine code else code
  let code2 :=
    if ticks.isSuffixOf code1 then jsTrimEnd (code1.take (code1.length - 3))
    else code1
  if hasTicks code2 then
    match findFenceFrom code2 with
    | some captured => jsTrim captured
    | none => code2
  else code2

/-- Character-list body of `sanitizeCode`: trim, handle fences, strip
boundary backticks, trim again. -/
def sanitizeCore (l : List Char) : List Char :=
  jsTrim (stripTicksEnds (afterFences (jsTrim l)))

/-- Embeds `sanitizeCode` (the spec's `extractCode`): removes markdown
formatting from a code response. -/
def sanitizeCode (s : String) : String :=
  ⟨sanitizeCore s.data⟩

/-- Delimiter tally of the bracket-balance validator: net counts of
parentheses, square brackets and curly braces over one scan. -/
def tallyDelims (l : List Char) : Int × Int × Int :=
  l.foldl
    (fun acc c =>
      if c == '(' then (acc.1 + 1, acc.2.1, acc.2.2)
      else if c == ')' then (acc.1 - 1, acc.2.1, acc.2.2)
      else if c == '[' then (acc.1, acc.2.1 + 1, acc.2.2)
      else if c == ']' then (acc.1, acc.2.1 - 1, acc.2.2)
      else if c == Char.ofNat 123 then (acc.1, acc.2.1, acc.2.2 + 1)
      else if c == Char.ofNat 125 then (acc.1, acc.2.1, acc.2.2 - 1)
      else acc)
    (0, 0, 0)

/-- Embeds `validatePythonSyntax` from the source (the spec's
`checkBalance`): valid exactly when all three delimiter counters end at
zero, with the source's error strings. -/
def checkBalance (code : String) : Bool × String :=
  let t := tallyDelims code.data
  if t.1 != 0 then (false, "Unbalanced parentheses")
  else if t.2.1 != 0 then (false, "Unbalanced brackets")
  else if t.2.2 != 0 then (false, "Unbalanced braces")
  else (true, "")

/-- Value of a digit run, as `parseInt(digits, 10)`. -/
def digitsToNat (l : List Char) : Nat :=
  l.foldl (fun n c => n * 10 + (c.toNat - 48)) 0

/-- Leftmost match of a regex of the form `(\d+) keyword`: the first
position opening a digit run whose greedy extent is immediately
followed by the keyword (here the keyword includes its leading space);
a shorter digit run would be followed by a digit, never by the
keyword's space, so greedy matching loses nothing. -/
def findNumBefore (kw : List Char) : List Char → Option Nat
  | [] => none
  | c :: rest =>
    let run := (c :: rest).takeWhile Char.isDigit
    if run.length != 0 && kw.isPrefixOf ((c :: rest).drop run.length) then
      some (digitsToNat run)
    else findNumBefore kw rest

/-- Result triple of `parseTestCounts`. -/
structure TestCounts where
  total : Nat
  passed : Nat
  failed : Nat
deriving DecidableEq

/-- Embeds `parseTestCounts`: passed from `(\d+) passed`, failed as the
sum of the `(\d+) failed` and `(\d+) error` matches, each defaulting to
0 when absent, and total as passed plus failed. -/
def parseTestCounts (output : String) : TestCounts :=
  let l := output.data
  let passed := (findNumBefore " passed".data l).getD 0
  let failed :=
    (findNumBefore " failed".data l).getD 0 + (findNumBefore " error".data l).getD 0
  ⟨passed + failed, passed, failed⟩

/-- Embeds `fixSyntaxError`: the repair chat call is modelled by its
outcome (`none` when the response type is not success, in which case the
source returns the original code; otherwise the sanitized response
text). -/
def fixSyntaxError (code : String) (chatResult : Option String) : String :=
  match chatResult with
  | none => code
  | some v => sanitizeCode v

/-- The bounded repair loop shared by `generateTestCode` and
`generateAdditionalTests`: up to `fuel` (three in the source) passes,
each re-checking balance and, on invalidity, calling the repair
capability once; `fixOutcome` gives the chat outcome of the attempt.
Returns the final code together with the number of repair calls made. -/
def repairAttempts (fixOutcome : Nat → String → Option String) :
    Nat → Nat → String → String × Nat
  | _, 0, code => (code, 0)
  | a, n + 1, code =>
    let v := checkBalance code
    if v.fst then (code, 0)
    else
      let fixed := fixSyntaxError code (fixOutcome a code)
      let r := repairAttempts fixOutcome (a + 1) n fixed
      (r.fst, r.snd + 1)

/-- Priority of a test scenario. -/
inductive TestPriority
  | High
  | Medium
  | Low
deriving DecidableEq

/-- A test scenario produced by the identification agent. -/
structure TestScenario where
  scenario_description : String
  priority : TestPriority
deriving DecidableEq

/-- Output of the identification agent (`ITestScenariosOutput`). -/
structure ScenariosOutput where
  test_scenarios : List TestScenario
deriving DecidableEq

/-- Execution summary of a test run (`IExecutionSummary`). -/
structure ExecutionSummary where
  total_tests : Nat
  passed : Nat
  failed : Nat
deriving DecidableEq

/-- A security finding (`ISecurityIssue`). The severity is kept as the
raw string, as the source merely casts the agent's string. -/
structure SecurityIssue where
  severity : String
  issue : String
  location : String
  recommendation : String
deriving DecidableEq

/-- Severity test used at lines 369 and 120 of the service: critical or
high. -/
def isSevere (si : SecurityIssue) : Bool :=
  si.severity == "critical" || si.severity == "high"

/-- Evaluation report (`ITestEvaluationOutput`). -/
structure TestEvaluationOutput where
  execution_summary : ExecutionSummary
  code_coverage_percentage : Rat
  actionable_recommendations : List String
  security_issues : List SecurityIssue
  has_severe_security_issues : Bool
deriving DecidableEq

/-- Result of `runTests` (`IPyTestExecutionResult`). -/
structure PyTestExecutionResult where
  exitCode : Int
  stdout : String
  stderr : String
  totalTests : Nat
  passed : Nat
  failed : Nat
  coveragePercentage : Rat
deriving DecidableEq

/-- Result of a generation step (`ITestImplementationResult`). -/
structure ImplementationResult where
  testCode : String
  filePath : String
  scenarioCount : Nat
deriving DecidableEq

/-- Pipeline status enumeration (`PipelineStatus`). -/
inductive PipelineStatus
  | pending_identification
  | awaiting_approval
  | generating_tests
  | running_tests
  | evaluating_results
  | improving_coverage
  | completed
  | failed
deriving DecidableEq

/-- Terminal pipeline state (`IPipelineState`), as returned by
`runPipeline`. -/
structure PipelineState where
  status : PipelineStatus
  identifiedScenarios : Option ScenariosOutput := none
  approvedScenarios : Option ScenariosOutput := none
  generatedTestCode : Option String := none
  evaluationResult : Option TestEvaluationOutput := none
  iteration : Nat := 0
  error : Option String := none
deriving DecidableEq

/-- Options of a run (`IPythonTestingPipelineOptions`); optional fields
are `Option` so the source's `??` defaults stay visible. -/
structure PipelineOptions where
  codebasePath : String := ""
  targetFiles : Option (List String) := none
  testOutputDir : Option String := none
  autoRunTests : Option Bool := none
  collectCoverage : Option Bool := none
  targetCoverage : Option Rat := none
  maxIterations : Option Nat := none

/-- The shape the evaluation agent's JSON is parsed into inside
`evaluateResults` (the anonymous generic argument of
`parseJsonResponse` there): the required key `execution_summary` is
present, the remaining fields are optional exactly where the source
guards them with `??`. -/
structure AgentEvalData where
  execution_summary : ExecutionSummary
  code_coverage_percentage : Rat
  actionable_recommendations : Option (List String)
  security_issues : Option (List SecurityIssue)
  has_severe_security_issues : Option Bool
deriving DecidableEq

/-- Oracle for the external collaborators of one run. Each agent call is
its outcome at the source's consumption boundary: `Except.error` is a
thrown chat-transport failure (its reason string), and for calls whose
JSON is parsed, `none` inside `ok` is a `JSON.parse`/required-key
failure of `parseJsonResponse`. The test runner is total because
`runTests` catches every spawn failure. -/
structure AgentEnv where
  pythonFiles : List String
  identCall : Except String (Option ScenariosOutput)
  genCall : Except String String
  fixChat : Nat → String → Option String
  runTests : Nat → PyTestExecutionResult
  evalCall : Nat → Except String (Option AgentEvalData)
  improveCall : Nat → Except String String
  improveFix : Nat → Nat → String → Option String

/-- Embeds the `try` block of `evaluateResults` (lines 352-396): on a
parsed response, the findings come from `security_issues ?? []`, the
severe flag is the agent's own `has_severe_security_issues` when
present and is recomputed from the findings only when absent, and the
execution summary and coverage are taken from the measured test result;
on a parse failure (the `catch` branch) the measured values are kept
and the agent-derived fields are emptied. -/
def evaluationOutput (testResult : PyTestExecutionResult)
    (parsed : Option AgentEvalData) : TestEvaluationOutput :=
  match parsed with
  | some data =>
    let securityIssues := data.security_issues.getD []
    let hasSevere :=
      data.has_severe_security_issues.getD (securityIssues.any isSevere)
    { execution_summary :=
        ⟨testResult.totalTests, testResult.passed, testResult.failed⟩
      code_coverage_percentage := testResult.coveragePercentage
      actionable_recommendations := data.actionable_recommendations.getD []
      security_issues := securityIssues
      has_severe_security_issues := hasSevere }
  | none =>
    { execution_summary :=
        ⟨testResult.totalTests, testResult.passed, testResult.failed⟩
      code_coverage_percentage := testResult.coveragePercentage
      actionable_recommendations := []
      security_issues := []
      has_severe_security_issues := false }

/-- Embeds `evaluateResults`: a chat-transport failure is rethrown with
the source's message; otherwise the `try`/`catch` body above runs. -/
def evaluateResults (testResult : PyTestExecutionResult)
    (outcome : Except String (Option AgentEvalData)) :
    Except String TestEvaluationOutput :=
  match outcome with
  | .error reason => .error ("Failed to evaluate test results: " ++ reason)
  | .ok parsed => .ok (evaluationOutput testResult parsed)

/-- Embeds `identifyTestScenarios`: an empty discovered-file list throws
the no-source error; a chat failure and a `parseJsonResponse` failure
(missing `test_scenarios` key or unparsable JSON) throw their
messages; otherwise the parsed scenario set is returned unchecked, even
when its list is empty. -/
def identifyTestScenarios (env : AgentEnv) : Except String ScenariosOutput :=
  if env.pythonFiles.length = 0 then
    .error "No Python files found in the specified path"
  else
    match env.identCall with
    | .error reason => .error ("Failed to identify test scenarios: " ++ reason)
    | .ok none => .error "Invalid response structure: missing test_scenarios"
    | .ok (some scenarios) => .ok scenarios

/-- Embeds `requestApproval`, the identity pass-through placeholder. -/
def requestApproval (scenarios : ScenariosOutput) : ScenariosOutput :=
  scenarios

/-- Embeds `generateTestCode`: chat failure throws; otherwise the
response is sanitized, passed through the 3-attempt repair loop, and
returned (and written to the test file) whether or not it ended up
valid. The timestamped file name is abstracted to a constant. -/
def generateTestCode (env : AgentEnv) (scenarios : ScenariosOutput) :
    Except String ImplementationResult :=
  match env.genCall with
  | .error reason => .error ("Failed to generate test code: " ++ reason)
  | .ok response =>
    let testCode := (repairAttempts env.fixChat 0 3 (sanitizeCode response)).fst
    .ok { testCode := testCode, filePath := "test_generated.py",
          scenarioCount := scenarios.test_scenarios.length }

/-- Embeds `generateAdditionalTests` at iteration `iter`: chat failure
throws; otherwise sanitize, repair up to 3 times, overwrite the
existing file and return with `scenarioCount` 0. -/
def generateAdditionalTests (env : AgentEnv) (iter : Nat)
    (existingTestFile : String) : Except String ImplementationResult :=
  match env.improveCall iter with
  | .error reason => .error ("Failed to generate additional tests: " ++ reason)
  | .ok response =>
    let testCode :=
      (repairAttempts (env.improveFix iter) 0 3 (sanitizeCode response)).fst
    .ok { testCode := testCode, filePath := existingTestFile,
          scenarioCount := 0 }

/-- Embeds the completion check of `runPipeline` (lines 109-112):
measured coverage at least the target, and no severe finding. -/
def completionGateMet (evaluation : TestEvaluationOutput)
    (targetCoverage : Rat) : Bool :=
  let coverageMet := decide (targetCoverage ≤ evaluation.code_coverage_percentage)
  let securityMet := !evaluation.has_severe_security_issues
  coverageMet && securityMet

/-- Result of the run-test/evaluate/improve loop: the iteration counter,
the last stored evaluation, the last implementation, and the message of
the collaborator failure that aborted the loop, if any. -/
structure LoopOutcome where
  iteration : Nat
  evaluation : Option TestEvaluationOutput
  impl : ImplementationResult
  errorMsg : Option String
deriving DecidableEq

/-- Embeds the `while (state.iteration < maxIterations)` loop of
`runPipeline` (lines 82-132); `fuel` is the remaining iteration budget
`maxIterations - iteration`. Each pass increments the counter, runs the
tests, evaluates (a chat failure aborts, a parse failure degrades
inside `evaluationOutput`), stops when the completion gate is met, and
otherwise regenerates (a chat failure aborts) and continues. -/
def improvementLoop (env : AgentEnv) (targetCoverage : Rat) :
    Nat → Nat → Option TestEvaluationOutput → ImplementationResult → LoopOutcome
  | 0, iter, lastEval, impl => ⟨iter, lastEval, impl, none⟩
  | n + 1, iter, lastEval, impl =>
    let iter' := iter + 1
    let testResult := env.runTests iter'
    match env.evalCall iter' with
    | .error reason =>
      ⟨iter', lastEval, impl, some ("Failed to evaluate test results: " ++ reason)⟩
    | .ok parsed =>
      let evaluation := evaluationOutput testResult parsed
      if completionGateMet evaluation targetCoverage then
        ⟨iter', some evaluation, impl, none⟩
      else
        let severeIssues := evaluation.security_issues.filter isSevere
        match generateAdditionalTests env iter' impl.filePath with
        | .error e => ⟨iter', some evaluation, impl, some e⟩
        | .ok impl' =>
          let _ := severeIssues
          improvementLoop env targetCoverage n iter' (some evaluation) impl'

/-- Embeds `runPipeline`: identification, approval, generation, then the
bounded improvement loop when `autoRunTests` (default true) is on; any
thrown collaborator failure is caught into a `failed` state that keeps
the fields already set, and every non-throwing path ends `completed`. -/
def runPipeline (opts : PipelineOptions) (env : AgentEnv) : PipelineState :=
  let targetCoverage := opts.targetCoverage.getD 90
  let maxIterations := opts.maxIterations.getD 20
  match identifyTestScenarios env with
  | .error e => { status := .failed, error := some e }
  | .ok scenarios =>
    let approved := requestApproval scenarios
    match generateTestCode env approved with
    | .error e =>
      { status := .failed, error := some e,
        identifiedScenarios := some scenarios, approvedScenarios := some approved }
    | .ok impl =>
      if opts.autoRunTests.getD true then
        let r := improvementLoop env targetCoverage maxIterations 0 none impl
        match r.errorMsg with
        | some e =>
          { status := .failed, error := some e,
            identifiedScenarios := some scenarios,
            approvedScenarios := some approved,
            generatedTestCode := some r.impl.testCode,
            evaluationResult := r.evaluation, iteration := r.iteration }
        | none =>
          { status := .completed,
            identifiedScenarios := some scenarios,
            approvedScenarios := some approved,
            generatedTestCode := some r.impl.testCode,
            evaluationResult := r.evaluation, iteration := r.iteration }
      else
        { status := .completed,
          identifiedScenarios := some scenarios,
          approvedScenarios := some approved,
          generatedTestCode := some impl.testCode }

/-- A test-runner result with all counters zero, the shape `runTests`
returns when spawning fails. -/
def trZero : PyTestExecutionResult := ⟨0, "", "", 0, 0, 0, 0⟩

/-- A concrete critical finding. -/
def criticalIssue : SecurityIssue :=
  ⟨"critical", "SQL injection", "app.py:42", "use parameterized queries"⟩

/-- Evaluation-agent data whose findings contain a critical issue while
the agent self-reports the severe flag as false. -/
def dataSelfReportFalse : AgentEvalData :=
  ⟨⟨0, 0, 0⟩, 0, none, some [criticalIssue], some false⟩

/-- Evaluation-agent data with a critical finding and no self-reported
severe flag. -/
def dataNoSelfReport : AgentEvalData :=
  ⟨⟨0, 0, 0⟩, 0, none, some [criticalIssue], none⟩

/-- C1, counterexample: the parsed findings contain a critical issue,
yet the report's severe flag is false because the agent self-reported
false and line 368 keeps a present self-report instead of recomputing. -/
theorem c1_flag_trusts_agent_counterexample :
    (dataSelfReportFalse.security_issues.getD []).any isSevere = true
    ∧ (evaluationOutput trZero (some dataSelfReportFalse)).has_severe_security_issues
        = false := by
  exact ⟨by decide, by decide⟩

/-- C1, amended: the report's severe flag equals the agent's
self-reported boolean whenever that boolean is present in the parsed
response; only when it is absent does the orchestrator recompute it as
"any finding with severity critical or high". -/
theorem c1_severe_flag_amended :
    (∀ (tr : PyTestExecutionResult) (data : AgentEvalData) (b : Bool),
        data.has_severe_security_issues = some b →
        (evaluationOutput tr (some data)).has_severe_security_issues = b)
    ∧ (∀ (tr : PyTestExecutionResult) (data : AgentEvalData),
        data.has_severe_security_issues = none →
        (evaluationOutput tr (some data)).has_severe_security_issues =
          (data.security_issues.getD []).any isSevere) := by
  constructor
  · intro tr data b h
    simp [evaluationOutput, h]
  · intro tr data h
    simp [evaluationOutput, h]

/-- C1, witness: both branches of the amended statement evaluated at
concrete inputs. -/
theorem c1_severe_flag_amended_witness :
    (evaluationOutput trZero (some dataSelfReportFalse)).has_severe_security_issues
        = false
    ∧ (evaluationOutput trZero (some dataNoSelfReport)).has_severe_security_issues
        = true :=
  ⟨c1_severe_flag_amended.1 trZero dataSelfReportFalse false rfl,
   (c1_severe_flag_amended.2 trZero dataNoSelfReport rfl).trans (by decide)⟩

/-- C4: the completion gate is exactly the conjunction of reaching the
target coverage and having no severe finding, checked also on the
spec's three example reports against target 90. -/
theorem c4_completion_gate :
    (∀ (e : TestEvaluationOutput) (t : Rat),
        completionGateMet e t = true ↔
          (t ≤ e.code_coverage_percentage ∧ e.has_severe_security_issues = false))
    ∧ completionGateMet ⟨⟨0, 0, 0⟩, 95, [], [], true⟩ 90 = false
    ∧ completionGateMet ⟨⟨0, 0, 0⟩, 85, [], [], false⟩ 90 = false
    ∧ completionGateMet ⟨⟨0, 0, 0⟩, 92, [], [], false⟩ 90 = true := by
  refine ⟨?_, by decide, by decide, by decide⟩
  intro e t
  simp [completionGateMet]

/-- C7: the two example outputs of `parseTestCounts`, and the general
laws that total is passed plus failed and that failed is the sum of the
failed and error matches, each pattern defaulting to zero when it does
not match. -/
theorem c7_parse_test_counts :
    parseTestCounts "12 passed, 3 failed in 2.1s" = ⟨15, 12, 3⟩
    ∧ parseTestCounts "no matches" = ⟨0, 0, 0⟩
    ∧ (∀ out : String, (parseTestCounts out).total =
        (parseTestCounts out).passed + (parseTestCounts out).failed)
    ∧ (∀ out : String, (parseTestCounts out).failed =
        (findNumBefore " failed".data out.data).getD 0 +
          (findNumBefore " error".data out.data).getD 0) :=
  ⟨by decide, by decide, fun _ => rfl, fun _ => rfl⟩

/-- C9: any report `evaluateResults` returns carries the measured
execution counts and the measured coverage of the test-runner result,
whatever the evaluation agent's JSON contained. -/
theorem c9_measured_values (tr : PyTestExecutionResult)
    (outcome : Except String (Option AgentEvalData))
    (out : TestEvaluationOutput)
    (h : evaluateResults tr outcome = Except.ok out) :
    out.execution_summary = ⟨tr.totalTests, tr.passed, tr.failed⟩
    ∧ out.code_coverage_percentage = tr.coveragePercentage := by
  cases outcome with
  | error r => simp [evaluateResults] at h
  | ok parsed =>
    simp only [evaluateResults, Except.ok.injEq] at h
    subst h
    cases parsed <;> exact ⟨rfl, rfl⟩

/-- A test-runner result with nonzero measured values. -/
def trMeasured : PyTestExecutionResult := ⟨0, "", "", 7, 6, 1, 42⟩

/-- C9, witness: the measured-values law evaluated on a concrete runner
result and a parse-failure outcome. -/
theorem c9_measured_values_witness :
    (evaluationOutput trMeasured none).execution_summary = ⟨7, 6, 1⟩
    ∧ (evaluationOutput trMeasured none).code_coverage_percentage = 42 :=
  c9_measured_values trMeasured (Except.ok none) (evaluationOutput trMeasured none) rfl

/-- Helper: the repair loop never makes more repair calls than its
remaining budget. -/
theorem repairAttempts_snd_le (fixO : Nat → String → Option String) :
    ∀ (fuel a : Nat) (code : String), (repairAttempts fixO a fuel code).snd ≤ fuel := by
  intro fuel
  induction fuel with
  | zero => intro a code; exact Nat.le_refl 0
  | succ n ih =>
    intro a code
    simp only [repairAttempts]
    by_cases h : (checkBalance code).fst = true
    · simp [h]
    · simp only [h, if_false, Bool.false_eq_true]
      exact Nat.succ_le_succ (ih (a + 1) _)

/-- An environment whose implementation agent returns an unbalanced
parenthesis and whose repair agent always answers with the same broken
code. -/
def envRepairStuck : AgentEnv :=
  { pythonFiles := ["app.py"], identCall := .ok (some ⟨[]⟩),
    genCall := .ok "(", fixChat := fun _ c => some c,
    runTests := fun _ => trZero, evalCall := fun _ => .ok none,
    improveCall := fun _ => .ok "(", improveFix := fun _ _ c => some c }

/-- C5: a generation makes at most 3 repair calls for any repair oracle;
with a repair agent that always returns the same invalid code the loop
makes exactly 3 calls and gives up, and `generateTestCode` still
succeeds with the invalid code used as-is. -/
theorem c5_repair_bounded :
    (∀ (fixO : Nat → String → Option String) (a : Nat) (code : String),
        (repairAttempts fixO a 3 code).snd ≤ 3)
    ∧ repairAttempts (fun _ c => some c) 0 3 "(" = ("(", 3)
    ∧ generateTestCode envRepairStuck ⟨[]⟩ =
        Except.ok ⟨"(", "test_generated.py", 0⟩
    ∧ (checkBalance "(").fst = false :=
  ⟨fun fixO a code => repairAttempts_snd_le fixO 3 a code,
   by decide, rfl, by decide⟩

/-- C10: when the repair chat call does not return a successful
response, `fixSyntaxError` returns its input code unchanged (it never
throws), so a repair oracle that always fails carries the original code
through the whole repair loop. -/
theorem c10_fix_failure_returns_input :
    (∀ code : String, fixSyntaxError code none = code)
    ∧ (∀ (a fuel : Nat) (code : String),
        (repairAttempts (fun _ _ => none) a fuel code).fst = code) := by
  refine ⟨fun _ => rfl, ?_⟩
  intro a fuel
  induction fuel generalizing a with
  | zero => intro code; rfl
  | succ n ih =>
    intro code
    simp only [repairAttempts]
    by_cases h : (checkBalance code).fst = true
    · simp [h]
    · simp only [h, if_false, Bool.false_eq_true]
      exact ih (a + 1) code

/-- Default options: every optional field absent, so the source defaults
(coverage 90, 20 iterations, auto-run on) apply. -/
def optsDefault : PipelineOptions := {}

/-- A one-element scenario set. -/
def oneScenario : ScenariosOutput := ⟨[⟨"login works with valid credentials", .High⟩]⟩

/-- A runner result with high measured coverage. -/
def trHighCoverage : PyTestExecutionResult := ⟨0, "5 passed in 1.0s", "", 5, 5, 0, 95⟩

/-- An environment whose evaluation agent's response fails JSON parsing
at every iteration, with every other collaborator healthy. -/
def envEvalMalformed : AgentEnv :=
  { pythonFiles := ["app.py"], identCall := .ok (some oneScenario),
    genCall := .ok "pass", fixChat := fun _ _ => none,
    runTests := fun _ => trHighCoverage, evalCall := fun _ => .ok none,
    improveCall := fun _ => .ok "pass", improveFix := fun _ _ _ => none }

/-- C2, counterexample: the evaluation agent's response is malformed at
iteration 1 (`ok none` models the `parseJsonResponse` failure), yet the
run terminates `completed` with no error and an evaluation report built
from substitute values (measured counts and coverage, empty findings),
because the `catch` of `evaluateResults` swallows the failure. -/
theorem c2_malformed_eval_counterexample :
    envEvalMalformed.evalCall 1 = Except.ok none
    ∧ (runPipeline optsDefault envEvalMalformed).status = PipelineStatus.completed
    ∧ (runPipeline optsDefault envEvalMalformed).evaluationResult =
        some ⟨⟨5, 5, 0⟩, 95, [], [], false⟩
    ∧ (runPipeline optsDefault envEvalMalformed).error = none :=
  ⟨rfl, by decide, by decide, by decide⟩

/-- C2, amended: a malformed response is fatal only at the
identification step, where it propagates and ends the run `failed` with
the missing-key message; at the evaluation step the parse failure is
caught and evaluation continues with the measured values and empty
agent-derived fields instead of failing. -/
theorem c2_malformed_response_amended :
    (∀ env : AgentEnv, env.pythonFiles.length ≠ 0 →
        env.identCall = Except.ok none →
        identifyTestScenarios env =
          Except.error "Invalid response structure: missing test_scenarios")
    ∧ (∀ (opts : PipelineOptions) (env : AgentEnv),
        env.pythonFiles.length ≠ 0 → env.identCall = Except.ok none →
        (runPipeline opts env).status = PipelineStatus.failed
        ∧ (runPipeline opts env).error =
            some "Invalid response structure: missing test_scenarios")
    ∧ (∀ tr : PyTestExecutionResult,
        evaluationOutput tr none =
          ⟨⟨tr.totalTests, tr.passed, tr.failed⟩, tr.coveragePercentage,
            [], [], false⟩) := by
  have hident : ∀ env : AgentEnv, env.pythonFiles.length ≠ 0 →
      env.identCall = Except.ok none →
      identifyTestScenarios env =
        Except.error "Invalid response structure: missing test_scenarios" := by
    intro env h1 h2
    simp [identifyTestScenarios, h1, h2]
  refine ⟨hident, ?_, fun tr => rfl⟩
  intro opts env h1 h2
  have h := hident env h1 h2
  simp [runPipeline, h]

/-- An environment whose identification agent's response is malformed. -/
def envIdentMalformed : AgentEnv :=
  { pythonFiles := ["m.py"], identCall := .ok none, genCall := .ok "pass",
    fixChat := fun _ _ => none, runTests := fun _ => trZero,
    evalCall := fun _ => .ok none, improveCall := fun _ => .ok "pass",
    improveFix := fun _ _ _ => none }

/-- C2, witness: the amended statement evaluated on a concrete
malformed-identification environment and a concrete runner result. -/
theorem c2_malformed_response_amended_witness :
    identifyTestScenarios envIdentMalformed =
        Except.error "Invalid response structure: missing test_scenarios"
    ∧ (runPipeline optsDefault envIdentMalformed).status = PipelineStatus.failed
    ∧ evaluationOutput trZero none = ⟨⟨0, 0, 0⟩, 0, [], [], false⟩ :=
  ⟨c2_malformed_response_amended.1 envIdentMalformed (by decide) rfl,
   (c2_malformed_response_amended.2.1 optsDefault envIdentMalformed (by decide) rfl).1,
   c2_malformed_response_amended.2.2 trZero⟩

/-- Options with the automatic test run disabled. -/
def optsNoAutoRun : PipelineOptions := { autoRunTests := some false }

/-- An environment with analyzable files whose identification agent
returns an empty scenario set. -/
def envEmptyScenarioSet : AgentEnv :=
  { pythonFiles := ["m.py"], identCall := .ok (some ⟨[]⟩),
    genCall := .ok "pass", fixChat := fun _ _ => none,
    runTests := fun _ => trZero, evalCall := fun _ => .ok none,
    improveCall := fun _ => .ok "pass", improveFix := fun _ _ _ => none }

/-- C3, counterexample: the identification step yields an empty set of
test scenarios, yet the run does not fail — it proceeds through
approval and generation and terminates `completed` with no error,
because the source only checks for an empty discovered-file list. -/
theorem c3_empty_scenarios_counterexample :
    envEmptyScenarioSet.identCall = Except.ok (some ⟨[]⟩)
    ∧ (runPipeline optsNoAutoRun envEmptyScenarioSet).status = PipelineStatus.completed
    ∧ (runPipeline optsNoAutoRun envEmptyScenarioSet).identifiedScenarios = some ⟨[]⟩
    ∧ (runPipeline optsNoAutoRun envEmptyScenarioSet).error = none :=
  ⟨rfl, by decide, by decide, by decide⟩

/-- C3, amended: the identification step fails exactly on an empty
discovered-file list — zero analyzable Python files end the run
`failed` with the no-source message — while an empty scenario set
returned by the agent is accepted unchecked and the run proceeds. -/
theorem c3_no_source_amended :
    (∀ env : AgentEnv, env.pythonFiles.length = 0 →
        identifyTestScenarios env =
          Except.error "No Python files found in the specified path")
    ∧ (∀ (opts : PipelineOptions) (env : AgentEnv), env.pythonFiles.length = 0 →
        (runPipeline opts env).status = PipelineStatus.failed
        ∧ (runPipeline opts env).error =
            some "No Python files found in the specified path") := by
  have hident : ∀ env : AgentEnv, env.pythonFiles.length = 0 →
      identifyTestScenarios env =
        Except.error "No Python files found in the specified path" := by
    intro env h1
    simp [identifyTestScenarios, h1]
  refine ⟨hident, ?_⟩
  intro opts env h1
  have h := hident env h1
  simp [runPipeline, h]

/-- An environment whose file discovery finds nothing. -/
def envNoFiles : AgentEnv :=
  { pythonFiles := [], identCall := .ok (some oneScenario),
    genCall := .ok "pass", fixChat := fun _ _ => none,
    runTests := fun _ => trZero, evalCall := fun _ => .ok none,
    improveCall := fun _ => .ok "pass", improveFix := fun _ _ _ => none }

/-- C3, witness: the amended statement evaluated on an environment with
no discovered files. -/
theorem c3_no_source_amended_witness :
    identifyTestScenarios envNoFiles =
        Except.error "No Python files found in the specified path"
    ∧ (runPipeline optsDefault envNoFiles).status = PipelineStatus.failed :=
  ⟨c3_no_source_amended.1 envNoFiles rfl,
   (c3_no_source_amended.2 optsDefault envNoFiles rfl).1⟩

/-- A run in which no collaborator call throws: files were found, the
identification and generation chats succeed with parsable or sanitizable
responses, and every per-iteration evaluation and improvement chat
succeeds (their JSON may still be malformed — that is the `Option`
inside). -/
def EnvNoFailure (env : AgentEnv) : Prop :=
  env.pythonFiles.length ≠ 0
  ∧ (∃ s, env.identCall = Except.ok (some s))
  ∧ (∃ r, env.genCall = Except.ok r)
  ∧ (∀ i, ∃ p, env.evalCall i = Except.ok p)
  ∧ (∀ i, ∃ r, env.improveCall i = Except.ok r)

/-- Helper: when the per-iteration collaborators never throw, the
improvement loop never records an error, advances the iteration counter
by at most its fuel, and stores an evaluation whenever it ran at least
once (or one was already stored). -/
theorem improvementLoop_ok (env : AgentEnv) (t : Rat)
    (hev : ∀ i, ∃ p, env.evalCall i = Except.ok p)
    (him : ∀ i, ∃ r, env.improveCall i = Except.ok r) :
    ∀ (fuel iter : Nat) (le : Option TestEvaluationOutput)
      (impl : ImplementationResult),
      (improvementLoop env t fuel iter le impl).errorMsg = none
      ∧ (improvementLoop env t fuel iter le impl).iteration ≤ iter + fuel
      ∧ ((1 ≤ fuel ∨ le.isSome = true) →
          ((improvementLoop env t fuel iter le impl).evaluation).isSome = true) := by
  intro fuel
  induction fuel with
  | zero =>
    intro iter le impl
    refine ⟨rfl, Nat.le_refl _, ?_⟩
    rintro (h | h)
    · exact absurd h (by omega)
    · exact h
  | succ n ih =>
    intro iter le impl
    obtain ⟨p, hp⟩ := hev (iter + 1)
    obtain ⟨r, hr⟩ := him (iter + 1)
    have hgen : generateAdditionalTests env (iter + 1) impl.filePath =
        Except.ok ⟨(repairAttempts (env.improveFix (iter + 1)) 0 3
          (sanitizeCode r)).fst, impl.filePath, 0⟩ := by
      simp [generateAdditionalTests, hr]
    by_cases hg : completionGateMet
        (evaluationOutput (env.runTests (iter + 1)) p) t = true
    · simp only [improvementLoop, hp, hg, if_true]
      exact ⟨by trivial, by omega, fun _ => by trivial⟩
    · simp only [improvementLoop, hp, hg, if_false, Bool.false_eq_true, hgen]
      have h := ih (iter + 1) (some (evaluationOutput (env.runTests (iter + 1)) p))
        ⟨(repairAttempts (env.improveFix (iter + 1)) 0 3 (sanitizeCode r)).fst,
          impl.filePath, 0⟩
      exact ⟨h.1, by omega, fun _ => h.2.2 (Or.inr (by trivial))⟩

/-- C8: whenever no collaborator call throws, the run terminates with
status `completed` (there is no other non-failed terminal status), the
loop has executed at most `maxIterations` iterations (default 20), and
with the automatic test run enabled and a nonzero budget the terminal
state carries a last evaluation, even when the budget was exhausted
without meeting the gate. -/
theorem c8_loop_bounded_completed (opts : PipelineOptions) (env : AgentEnv)
    (h : EnvNoFailure env) :
    (runPipeline opts env).status = PipelineStatus.completed
    ∧ (runPipeline opts env).iteration ≤ opts.maxIterations.getD 20
    ∧ (opts.autoRunTests.getD true = true → 1 ≤ opts.maxIterations.getD 20 →
        ((runPipeline opts env).evaluationResult).isSome = true) := by
  obtain ⟨h1, ⟨s, hs⟩, ⟨r, hr⟩, hev, him⟩ := h
  have hid : identifyTestScenarios env = Except.ok s := by
    simp [identifyTestScenarios, h1, hs]
  have hgen : generateTestCode env (requestApproval s) =
      Except.ok ⟨(repairAttempts env.fixChat 0 3 (sanitizeCode r)).fst,
        "test_generated.py", (requestApproval s).test_scenarios.length⟩ := by
    simp [generateTestCode, hr]
  have hloop := improvementLoop_ok env (opts.targetCoverage.getD 90) hev him
    (opts.maxIterations.getD 20) 0 none
    ⟨(repairAttempts env.fixChat 0 3 (sanitizeCode r)).fst,
      "test_generated.py", (requestApproval s).test_scenarios.length⟩
  simp only [runPipeline, hid, hgen]
  by_cases hab : opts.autoRunTests.getD true = true
  · simp only [hab, if_true, hloop.1]
    refine ⟨by trivial, ?_, ?_⟩
    · simpa using hloop.2.1
    · intro _ hfuel
      exact hloop.2.2 (Or.inl hfuel)
  · simp only [hab, Bool.false_eq_true, if_false]
    refine ⟨by trivial, by simp, ?_⟩
    intro hcontra
    exact absurd hcontra (by decide)

/-- A benign parsed evaluation-agent response. -/
def agentEvalBenign : AgentEvalData :=
  ⟨⟨5, 5, 0⟩, 80, some ["add edge case tests"], some [], some false⟩

/-- An environment in which every collaborator call succeeds. -/
def envHealthy : AgentEnv :=
  { pythonFiles := ["app.py"], identCall := .ok (some oneScenario),
    genCall := .ok "pass", fixChat := fun _ _ => none,
    runTests := fun _ => trHighCoverage,
    evalCall := fun _ => .ok (some agentEvalBenign),
    improveCall := fun _ => .ok "pass", improveFix := fun _ _ _ => none }

/-- C8, witness: the bounded-completion law evaluated on a concrete
healthy environment with default options. -/
theorem c8_loop_bounded_completed_witness :
    (runPipeline optsDefault envHealthy).status = PipelineStatus.completed
    ∧ (runPipeline optsDefault envHealthy).iteration ≤ 20
    ∧ ((runPipeline optsDefault envHealthy).evaluationResult).isSome = true := by
  have h := c8_loop_bounded_completed optsDefault envHealthy
    ⟨by decide, ⟨oneScenario, rfl⟩, ⟨"pass", rfl⟩,
     fun i => ⟨some agentEvalBenign, rfl⟩, fun i => ⟨"pass", rfl⟩⟩
  exact ⟨h.1, h.2.1, h.2.2 rfl (by decide)⟩

/-- Helper: JavaScript trim is idempotent. -/
theorem jsTrim_idem (l : List Char) : jsTrim (jsTrim l) = jsTrim l := by
  unfold jsTrim
  have hdm : (l.dropWhile isJsWS).dropWhile isJsWS = l.dropWhile isJsWS :=
    List.dropWhile_idempotent isJsWS l
  set m := l.dropWhile isJsWS with hm
  have hd : (m.rdropWhile isJsWS).dropWhile isJsWS = m.rdropWhile isJsWS := by
    rw [List.dropWhile_eq_self_iff]
    intro hl
    have hpre : m.rdropWhile isJsWS <+: m := List.rdropWhile_prefix _ _
    have hm0 : 0 < m.length := lt_of_lt_of_le hl hpre.length_le
    have hfirst := (List.dropWhile_eq_self_iff.mp hdm) hm0
    have hg : (m.rdropWhile isJsWS).get ⟨0, hl⟩ = m.get ⟨0, hm0⟩ := by
      simp only [List.get_eq_getElem]
      exact hpre.getElem hl
    rw [hg]
    exact hfirst
  rw [hd, List.rdropWhile_idempotent]

/-- Helper: the output of `sanitizeCore` is trimmed. -/
theorem jsTrim_sanitizeCore (l : List Char) :
    jsTrim (sanitizeCore l) = sanitizeCore l := by
  rw [sanitizeCore]
  exact jsTrim_idem _

/-- Helper: a backtick-free text does not start with a fence. -/
theorem ticks_isPrefixOf_eq_false {l : List Char} (h : ∀ c ∈ l, c ≠ btChar) :
    ticks.isPrefixOf l = false := by
  cases l with
  | nil => rfl
  | cons c cs =>
    have hc : (btChar == c) = false :=
      beq_eq_false_iff_ne.mpr (Ne.symm (h c (List.mem_cons_self c cs)))
    simp [ticks, List.isPrefixOf, hc]

/-- Helper: a backtick-free text does not end with a fence. -/
theorem ticks_isSuffixOf_eq_false {l : List Char} (h : ∀ c ∈ l, c ≠ btChar) :
    ticks.isSuffixOf l = false := by
  simp only [List.isSuffixOf]
  have hrev : ticks.reverse = ticks := rfl
  rw [hrev]
  exact ticks_isPrefixOf_eq_false (fun c hc => h c (List.mem_reverse.mp hc))

/-- Helper: a backtick-free text contains no fence. -/
theorem hasTicks_eq_false {l : List Char} (h : ∀ c ∈ l, c ≠ btChar) :
    hasTicks l = false := by
  induction l with
  | nil => rfl
  | cons c cs ih =>
    simp only [hasTicks, Bool.or_eq_false_iff]
    exact ⟨ticks_isPrefixOf_eq_false h,
      ih (fun d hd => h d (List.mem_cons_of_mem c hd))⟩

/-- Helper: the boundary backtick strip fixes backtick-free text. -/
theorem stripTicksEnds_eq_self {l : List Char} (h : ∀ c ∈ l, c ≠ btChar) :
    stripTicksEnds l = l := by
  have h1 : l.dropWhile (· == btChar) = l := by
    cases l with
    | nil => rfl
    | cons c cs =>
      have hc : (c == btChar) = false :=
        beq_eq_false_iff_ne.mpr (h c (List.mem_cons_self c cs))
      simp [List.dropWhile_cons, hc]
  simp only [stripTicksEnds, h1]
  rw [List.rdropWhile_eq_self_iff]
  intro hl
  simp only [beq_iff_eq]
  exact h _ (List.getLast_mem hl)

/-- Helper: the fence-handling blocks fix backtick-free text. -/
theorem afterFences_eq_self {l : List Char} (h : ∀ c ∈ l, c ≠ btChar) :
    afterFences l = l := by
  simp only [afterFences, ticks_isPrefixOf_eq_false h, ticks_isSuffixOf_eq_false h,
    hasTicks_eq_false h, Bool.false_eq_true, if_false]

/-- Helper: `sanitizeCore` fixes trimmed backtick-free text. -/
theorem sanitizeCore_eq_self {l : List Char} (h : ∀ c ∈ l, c ≠ btChar)
    (ht : jsTrim l = l) : sanitizeCore l = l := by
  rw [sanitizeCore, ht, afterFences_eq_self h, stripTicksEnds_eq_self h, ht]

/-- C6, counterexample: `sanitizeCode` is not idempotent. On the input
consisting of the letter a, a backtick, a space and a backtick, one
application gives the letter a followed by one backtick (the boundary
strip removes the final backtick and the trailing trim then exposes the
inner one), and a second application strips that freshly exposed
backtick as well. -/
theorem c6_idempotence_counterexample :
    sanitizeCode "a` `" = "a`"
    ∧ sanitizeCode (sanitizeCode "a` `") = "a"
    ∧ sanitizeCode (sanitizeCode "a` `") ≠ sanitizeCode "a` `" :=
  ⟨by decide, by decide, by decide⟩

/-- C6, amended: `sanitizeCode` is not idempotent on all inputs, but it
is idempotent on every input whose extracted result contains no
backtick character — in particular on every response whose fenced code
body is backtick-free. -/
theorem c6_idempotent_amended (x : String)
    (h : ∀ c ∈ (sanitizeCode x).data, c ≠ btChar) :
    sanitizeCode (sanitizeCode x) = sanitizeCode x := by
  have hs : ∀ s : String, sanitizeCode s = ⟨sanitizeCore s.data⟩ := fun s => rfl
  have hd : ∀ l : List Char, (⟨l⟩ : String).data = l := fun l => rfl
  have h2 : ∀ c ∈ sanitizeCore x.data, c ≠ btChar := by
    rw [hs x, hd] at h
    exact h
  have key : sanitizeCore (sanitizeCore x.data) = sanitizeCore x.data :=
    sanitizeCore_eq_self h2 (jsTrim_sanitizeCore x.data)
  calc sanitizeCode (sanitizeCode x)
      = ⟨sanitizeCore (sanitizeCode x).data⟩ := hs _
    _ = ⟨sanitizeCore (sanitizeCore x.data)⟩ := by rw [hs x, hd]
    _ = ⟨sanitizeCore x.data⟩ := by rw [key]
    _ = sanitizeCode x := (hs x).symm

/-- C6, witness: idempotence on a concrete backtick-free extraction. -/
theorem c6_idempotent_amended_witness :
    sanitizeCode (sanitizeCode "x = 1") = sanitizeCode "x = 1" :=
  c6_idempotent_amended "x = 1" (by decide)
